import Mathlib

/-
Verification of the gitping release-notification pipeline.

Shallow embedding of the core pipeline code:
  src/src/workers/poller.ts          (queue-based scheduled poller)
  src/src/workers/simple-poller.ts   (inline scheduled poller)
  src/unnamed/part_003               (queue notifier worker and retry sweep)
  src/unnamed/part_005               (DatabaseService over D1)
  src/unnamed/part_006               (GitHubAPI client)
  src/unnamed/part_007               (filter utilities)
  src/src/schema.sql                 (events and notifications tables)

Modelling conventions:
  - D1 tables become lists of row structures threaded through the functions.
  - The upstream HTTP response, the JS regular-expression engine and the
    delivery channel are inputs (a response value, a compile function and a
    deliver function), since they are external to the repository.
  - GitHubRelease.published_at is an ISO timestamp string in the source;
    it is modelled as the epoch-millisecond number that Date.parse returns
    from it, so Math.floor(Date.parse(x)/1000) becomes x / 1000 on Nat.
  - PollState.lastSeenId is stored in KV as the decimal string produced by
    Math.max(...).toString() and read back with parseInt; that round trip is
    the identity on Nat, so the field is modelled as Option Nat.
-/

namespace GitPing

/-- GitHubRelease from src/src/lib/types.ts. -/
structure GitHubRelease where
  id : Nat
  tag_name : String
  name : String
  body : String
  html_url : String
  published_at : Nat
  prerelease : Bool
  draft : Bool
deriving DecidableEq

/-- PollState from src/src/lib/types.ts, the per-resource KV cursor. -/
structure PollState where
  lastSeenId : Option Nat
  etag : Option String
  lastModified : Option String
  checkedAt : Nat
deriving DecidableEq

/-- EventMessage from src/src/lib/types.ts, the queue message sent on EVENTS. -/
structure EventMessage where
  repo_id : Nat
  kind : String
  external_id : String
deriving DecidableEq

/-- ReleaseFilters from src/src/lib/types.ts. -/
structure ReleaseFilters where
  include_prereleases : Option Bool
  tag_regex : Option String
deriving DecidableEq

/-- A delivery channel entry as parsed from channels_json. -/
structure Channel where
  type : String
  chat_id : Option String
deriving DecidableEq

/-- A row of the repos table (the fields used by the polling path). -/
structure Repo where
  id : Nat
  owner : String
  name : String
  consecutive_errors : Nat
  last_polled_at : Option Nat
deriving DecidableEq

/-- A row of the events table from src/src/schema.sql. -/
structure EventRow where
  id : Nat
  repo_id : Nat
  kind : String
  external_id : String
  payload : GitHubRelease
  occurred_at : Nat
deriving DecidableEq

/-- The events table: rows plus the next AUTOINCREMENT rowid (starts at 1). -/
structure EventsDB where
  rows : List EventRow
  nextId : Nat
deriving DecidableEq

/-- A row of the notifications table from src/src/schema.sql. -/
structure NotifRow where
  id : Nat
  event_id : Nat
  subscription_id : Nat
  channel : String
  status : String
  attempts : Nat
  last_error : Option String
  last_error_at : Option Nat
  sent_at : Option Nat
deriving DecidableEq

/-- The notifications table: rows plus the next AUTOINCREMENT rowid. -/
structure NotifDB where
  rows : List NotifRow
  nextId : Nat
deriving DecidableEq

/-- A subscription row after its filters_json and channels_json are parsed
(the queue notifier parses both with JSON.parse before using them). -/
structure SubRow where
  id : Nat
  filters : ReleaseFilters
  channels : List Channel
deriving DecidableEq

/-- Result shape of GitHubAPI.getReleases in src/unnamed/part_006. -/
structure ReleasesResult where
  releases : List GitHubRelease
  etag : Option String
  lastModified : Option String
  isNotModified : Bool
deriving DecidableEq

/-- The upstream HTTP response to the releases fetch, an external input:
a 304, a JSON body with fresh header values, or an HTTP error status. -/
inductive GitHubResponse where
  | status304
  | okJson (releases : List GitHubRelease) (etag : Option String)
      (lastModified : Option String)
  | httpError (status : Nat) (statusText : String)
deriving DecidableEq

/-- GitHubAPI.getReleases, src/unnamed/part_006 lines 49 to 87: a 304 echoes
the stored etag and last-modified back with isNotModified, a non-ok status
throws, and a body is returned with drafts filtered out and the fresh
etag and last-modified header values. -/
def getReleases (state : Option PollState) (resp : GitHubResponse) :
    Except String ReleasesResult :=
  match resp with
  | GitHubResponse.status304 =>
      Except.ok { releases := [],
                  etag := state.bind fun s => s.etag,
                  lastModified := state.bind fun s => s.lastModified,
                  isNotModified := true }
  | GitHubResponse.okJson rels etag lastModified =>
      Except.ok { releases := rels.filter fun r => !r.draft,
                  etag := etag,
                  lastModified := lastModified,
                  isNotModified := false }
  | GitHubResponse.httpError status statusText =>
      Except.error ("GitHub API error: " ++ toString status ++ " " ++ statusText)

/-- Whether the needle occurs as a contiguous sublist, by scanning every
suffix. -/
def subListAt (needle : List Char) : List Char → Bool
  | [] => needle.isEmpty
  | c :: rest => needle.isPrefixOf (c :: rest) || subListAt needle rest

/-- JS String.prototype.includes: the needle occurs contiguously in the
string. -/
def jsIncludes (s needle : String) : Bool := subListAt needle.data s.data

/-- The SQLite error message raised when the events uniqueness index is
violated by an insert. -/
def uniqueViolationMsg : String :=
  "UNIQUE constraint failed: events.repo_id, events.kind, events.external_id"

/-- Outcome of a raw D1 statement run: a rowid or a thrown error message. -/
inductive D1RunResult where
  | ok (lastRowId : Nat)
  | err (message : String)
deriving DecidableEq

/-- Whether the events table already holds a row with this
(repo_id, kind, external_id) triple, the schema.sql uniqueness key. -/
def hasEventTriple (db : EventsDB) (repoId : Nat) (kind externalId : String) :
    Bool :=
  db.rows.any fun e =>
    e.repo_id == repoId && e.kind == kind && e.external_id == externalId

/-- The raw D1 INSERT INTO events. A fault models any persistence failure
other than the table logic itself (network, disk): when injected, the run
throws with that message. Otherwise the UNIQUE(repo_id, kind, external_id)
constraint of schema.sql rejects a duplicate triple and the row is appended
with the next rowid when the triple is fresh. -/
def d1InsertEvent (db : EventsDB) (repoId : Nat) (kind externalId : String)
    (payload : GitHubRelease) (occurredAt : Nat) (fault : Option String) :
    D1RunResult × EventsDB :=
  match fault with
  | some msg => (D1RunResult.err msg, db)
  | none =>
      if hasEventTriple db repoId kind externalId then
        (D1RunResult.err uniqueViolationMsg, db)
      else
        (D1RunResult.ok db.nextId,
         { rows := db.rows ++
             [{ id := db.nextId, repo_id := repoId, kind := kind,
                external_id := externalId, payload := payload,
                occurred_at := occurredAt }],
           nextId := db.nextId + 1 })

/-- DatabaseService.createEvent, src/unnamed/part_005 lines 216 to 240:
returns the new rowid, returns null when the caught error message includes
the UNIQUE-constraint text, and rethrows any other error. -/
def createEvent (db : EventsDB) (repoId : Nat) (kind externalId : String)
    (payload : GitHubRelease) (occurredAt : Nat) (fault : Option String) :
    Except String (Option Nat × EventsDB) :=
  match d1InsertEvent db repoId kind externalId payload occurredAt fault with
  | (D1RunResult.ok rowId, db2) => Except.ok (some rowId, db2)
  | (D1RunResult.err msg, db2) =>
      if jsIncludes msg "UNIQUE constraint failed" then Except.ok (none, db2)
      else Except.error msg

/-- Ascending order on nullable integers with NULLS FIRST, the key order
used by the ORDER BY clauses of part_005. -/
def optLeNullsFirst : Option Nat → Option Nat → Bool
  | none, _ => true
  | some _, none => false
  | some a, some b => a ≤ b

/-- The WHERE predicate of DatabaseService.getReposForPolling,
src/unnamed/part_005 lines 112 to 125: id mod 60 matches the minute, and
the resource is healthy (fewer than 5 consecutive errors) or was last
polled more than 300000 ms before now (or never). -/
def repoPollPred (minute now : Nat) (r : Repo) : Bool :=
  (r.id % 60 == minute) &&
    (decide (r.consecutive_errors < 5) ||
      (match r.last_polled_at with
       | none => true
       | some t => decide (t < now - 300000)))

/-- ORDER BY last_polled_at ASC NULLS FIRST as a relation on repo rows. -/
def repoPollOrder (a b : Repo) : Prop :=
  optLeNullsFirst a.last_polled_at b.last_polled_at = true

instance : DecidableRel repoPollOrder := fun a b =>
  instDecidableEqBool (optLeNullsFirst a.last_polled_at b.last_polled_at) true

/-- DatabaseService.getReposForPolling, src/unnamed/part_005 lines 112 to
125: filter by repoPollPred, order by last_polled_at ascending with nulls
first, and keep at most 100 rows (LIMIT 100). The ORDER BY is modelled by
insertion sort. -/
def getReposForPolling (minute now : Nat) (repos : List Repo) : List Repo :=
  (List.insertionSort repoPollOrder (repos.filter (repoPollPred minute now))).take 100

/-- DatabaseService.createNotification, src/unnamed/part_005 lines 281 to
295: inserts a row with the schema defaults status queued and attempts 0,
returning the new rowid. -/
def createNotification (db : NotifDB) (eventId subscriptionId : Nat)
    (channel : String) : NotifDB × Nat :=
  ({ rows := db.rows ++
       [{ id := db.nextId, event_id := eventId,
          subscription_id := subscriptionId, channel := channel,
          status := "queued", attempts := 0, last_error := none,
          last_error_at := none, sent_at := none }],
     nextId := db.nextId + 1 },
   db.nextId)

/-- DatabaseService.updateNotificationStatus, src/unnamed/part_005 lines 297
to 314: on the matching row, set status, increment attempts, overwrite
last_error, and stamp last_error_at or sent_at depending on the status. -/
def updateNotificationStatus (db : NotifDB) (id : Nat) (status : String)
    (error : Option String) (now : Nat) : NotifDB :=
  { db with rows := db.rows.map fun n =>
      if n.id == id then
        { n with status := status, attempts := n.attempts + 1,
                 last_error := error,
                 last_error_at := if status == "error" then some now
                                  else n.last_error_at,
                 sent_at := if status == "sent" then some now else n.sent_at }
      else n }

/-- The WHERE predicate of DatabaseService.getFailedNotifications,
src/unnamed/part_005 lines 316 to 333: status error, attempts below the
ceiling, and last_error_at null or more than 300000 ms before now. -/
def failedNotifPred (maxAttempts now : Nat) (n : NotifRow) : Bool :=
  (n.status == "error") && decide (n.attempts < maxAttempts) &&
    (match n.last_error_at with
     | none => true
     | some t => decide (t < now - 300000))

/-- ORDER BY last_error_at ASC NULLS FIRST as a relation on rows. -/
def lastErrorOrder (a b : NotifRow) : Prop :=
  optLeNullsFirst a.last_error_at b.last_error_at = true

instance : DecidableRel lastErrorOrder := fun a b =>
  instDecidableEqBool (optLeNullsFirst a.last_error_at b.last_error_at) true

instance : IsTotal NotifRow lastErrorOrder where
  total a b := by
    unfold lastErrorOrder
    generalize a.last_error_at = x
    generalize b.last_error_at = y
    cases x <;> cases y <;> simp [optLeNullsFirst, decide_eq_true_iff] <;>
      exact Nat.le_total _ _

instance : IsTrans NotifRow lastErrorOrder where
  trans a b c hab hbc := by
    unfold lastErrorOrder at hab hbc ⊢
    generalize a.last_error_at = x at hab ⊢
    generalize b.last_error_at = y at hab hbc
    generalize c.last_error_at = z at hbc ⊢
    cases x <;> cases y <;> cases z <;>
      simp_all [optLeNullsFirst, decide_eq_true_iff] <;> omega

/-- DatabaseService.getFailedNotifications, src/unnamed/part_005 lines 316
to 333: filter by failedNotifPred, order by last_error_at ascending with
nulls first, and keep at most 50 rows (LIMIT 50). -/
def getFailedNotifications (maxAttempts now : Nat) (db : NotifDB) :
    List NotifRow :=
  (List.insertionSort lastErrorOrder
    (db.rows.filter (failedNotifPred maxAttempts now))).take 50

/-- The new-release classification of src/src/workers/poller.ts lines 105 to
108: with a stored last-seen id keep releases with a greater id, otherwise
take only the latest (the head of the newest-first list). -/
def newReleasesOf (currentLastSeenId : Option Nat)
    (releases : List GitHubRelease) : List GitHubRelease :=
  match currentLastSeenId with
  | some last => releases.filter fun r => decide (last < r.id)
  | none => releases.take 1

/-- Math.max over the ids of the fetched releases, as in line 136 of
src/src/workers/poller.ts (the call site guarantees a non-empty list). -/
def maxReleaseId (releases : List GitHubRelease) : Nat :=
  (releases.map fun r => r.id).foldl max 0

/-- The processing loop of src/src/workers/poller.ts lines 113 to 133, in
iteration order (the caller passes newReleases already reversed): for each
release call createEvent and, when a truthy event id comes back, send the
EventMessage on the EVENTS queue. With no injected persistence fault
createEvent cannot throw (see createEvent_fault_free), so the error arm is
unreachable and skips. -/
def processNewReleases (repoId : Nat) (db : EventsDB) :
    List GitHubRelease → EventsDB × List EventMessage
  | [] => (db, [])
  | release :: rest =>
      match createEvent db repoId "release" (toString release.id) release
          (release.published_at / 1000) none with
      | Except.ok (some eventId, db2) =>
          if eventId == 0 then processNewReleases repoId db2 rest
          else
            let p := processNewReleases repoId db2 rest
            (p.1, { repo_id := repoId, kind := "release",
                    external_id := toString release.id } :: p.2)
      | Except.ok (none, db2) => processNewReleases repoId db2 rest
      | Except.error _ => processNewReleases repoId db rest

/-- Result of one pollReleases call of src/src/workers/poller.ts: the events
table afterwards, the EventMessages sent on the EVENTS queue in order, the
PollState written to KV (none when nothing is written), and the rethrown
error message on the failure path. -/
structure PollResult where
  db : EventsDB
  queued : List EventMessage
  kvPut : Option PollState
  thrown : Option String
deriving DecidableEq

/-- pollReleases, src/src/workers/poller.ts lines 65 to 160. The branches in
order: fetch failure updates only checkedAt when a cursor exists and
rethrows; a 304 rewrites the spread of the current state with a fresh
checkedAt; an empty post-draft-filter list keeps lastSeenId and stores the
fresh etag and lastModified; otherwise the new releases (oldest first) are
processed and the cursor advances to the maximum fetched id with the fresh
etag and lastModified. -/
def pollReleases (repo : Repo) (currentState : Option PollState)
    (resp : GitHubResponse) (db : EventsDB) (now : Nat) : PollResult :=
  match getReleases currentState resp with
  | Except.error e =>
      { db := db, queued := [],
        kvPut := match currentState with
                 | some s => some { s with checkedAt := now }
                 | none => none,
        thrown := some e }
  | Except.ok result =>
      if result.isNotModified then
        { db := db, queued := [],
          kvPut := some { lastSeenId := currentState.bind fun s => s.lastSeenId,
                          etag := currentState.bind fun s => s.etag,
                          lastModified := currentState.bind fun s => s.lastModified,
                          checkedAt := now },
          thrown := none }
      else
        let releases := result.releases.filter fun r => !r.draft
        if releases.isEmpty then
          { db := db, queued := [],
            kvPut := some { lastSeenId := currentState.bind fun s => s.lastSeenId,
                            etag := result.etag,
                            lastModified := result.lastModified,
                            checkedAt := now },
            thrown := none }
        else
          let newReleases :=
            newReleasesOf (currentState.bind fun s => s.lastSeenId) releases
          let p := processNewReleases repo.id db newReleases.reverse
          { db := p.1, queued := p.2,
            kvPut := some { lastSeenId := some (maxReleaseId releases),
                            etag := result.etag,
                            lastModified := result.lastModified,
                            checkedAt := now },
            thrown := none }

/-- The processing loop of src/src/workers/simple-poller.ts lines 121 to
135, in iteration order: for each release call createEvent and, when a
truthy event id comes back, run sendReleaseNotifications inline. The
returned list records each (eventId, release) pair handed to
sendReleaseNotifications. -/
def processNewReleasesNotify (repoId : Nat) (db : EventsDB) :
    List GitHubRelease → EventsDB × List (Nat × GitHubRelease)
  | [] => (db, [])
  | release :: rest =>
      match createEvent db repoId "release" (toString release.id) release
          (release.published_at / 1000) none with
      | Except.ok (some eventId, db2) =>
          if eventId == 0 then processNewReleasesNotify repoId db2 rest
          else
            let p := processNewReleasesNotify repoId db2 rest
            (p.1, (eventId, release) :: p.2)
      | Except.ok (none, db2) => processNewReleasesNotify repoId db2 rest
      | Except.error _ => processNewReleasesNotify repoId db rest

/-- Result of one pollReleasesAndNotify call of
src/src/workers/simple-poller.ts: the events table afterwards, the
(eventId, release) pairs for which inline notifications were sent, the
PollState written to KV, and the rethrown error message. -/
structure SimplePollResult where
  db : EventsDB
  notified : List (Nat × GitHubRelease)
  kvPut : Option PollState
  thrown : Option String
deriving DecidableEq

/-- pollReleasesAndNotify, src/src/workers/simple-poller.ts lines 64 to 162.
Identical to pollReleases except that with no stored cursor the new-release
list is set to the empty list (first-poll suppression, lines 108 to 116)
and notifications are sent inline instead of queued. -/
def pollReleasesAndNotify (repo : Repo) (currentState : Option PollState)
    (resp : GitHubResponse) (db : EventsDB) (now : Nat) : SimplePollResult :=
  match getReleases currentState resp with
  | Except.error e =>
      { db := db, notified := [],
        kvPut := match currentState with
                 | some s => some { s with checkedAt := now }
                 | none => none,
        thrown := some e }
  | Except.ok result =>
      if result.isNotModified then
        { db := db, notified := [],
          kvPut := some { lastSeenId := currentState.bind fun s => s.lastSeenId,
                          etag := currentState.bind fun s => s.etag,
                          lastModified := currentState.bind fun s => s.lastModified,
                          checkedAt := now },
          thrown := none }
      else
        let releases := result.releases.filter fun r => !r.draft
        if releases.isEmpty then
          { db := db, notified := [],
            kvPut := some { lastSeenId := currentState.bind fun s => s.lastSeenId,
                            etag := result.etag,
                            lastModified := result.lastModified,
                            checkedAt := now },
            thrown := none }
        else
          let newReleases : List GitHubRelease :=
            match (currentState.bind fun s => s.lastSeenId : Option Nat) with
            | some last => releases.filter (fun r => decide (last < r.id))
            | none => []
          let p := processNewReleasesNotify repo.id db newReleases.reverse
          { db := p.1, notified := p.2,
            kvPut := some { lastSeenId := some (maxReleaseId releases),
                            etag := result.etag,
                            lastModified := result.lastModified,
                            checkedAt := now },
            thrown := none }

/-- Iterate pollReleases of src/src/workers/poller.ts over a list of cycles,
each an upstream response with a wall-clock time. The KV state read at the
start of a cycle is the value written by the previous cycle when one was
written. Returns the final KV state, the final events table and the
concatenation of all queued EventMessages. -/
def runPollCycles (repo : Repo) (st : Option PollState) (db : EventsDB) :
    List (GitHubResponse × Nat) → Option PollState × EventsDB × List EventMessage
  | [] => (st, db, [])
  | (resp, t) :: rest =>
      let r := pollReleases repo st resp db t
      let st2 := match r.kvPut with
                 | some s => some s
                 | none => st
      let tail := runPollCycles repo st2 r.db rest
      (tail.1, tail.2.1, r.queued ++ tail.2.2)

/-- shouldNotify of the queue notifier, src/unnamed/part_003 lines 115 to
148. The compile argument models the JS regular-expression engine: none
means new RegExp(pattern) throws a SyntaxError, which this function does
not catch, so the error value models the exception propagating to the
caller. The JS truthiness test on filters.tag_regex skips the empty
string. Commit filters are unimplemented in the source (returns true). -/
def shouldNotify (compile : String → Option (String → Bool)) (kind : String)
    (release : GitHubRelease) (filters : ReleaseFilters) :
    Except String Bool :=
  if kind == "release" then
    if filters.include_prereleases == some false && release.prerelease then
      Except.ok false
    else
      match filters.tag_regex with
      | some pat =>
          if pat == "" then Except.ok true
          else
            match compile pat with
            | none =>
                Except.error ("SyntaxError: invalid regular expression: " ++ pat)
            | some test =>
                if !test release.tag_name then Except.ok false
                else Except.ok true
      | none => Except.ok true
  else if kind == "commit" then Except.ok true
  else Except.ok false

/-- shouldNotifyRelease of the filter utilities, src/unnamed/part_007 lines
5 to 33: drafts are suppressed, the prerelease flag is honoured, and the
tag_regex block is wrapped in try/catch, so an invalid pattern (compile
returns none) skips the filter instead of blocking the notification. -/
def shouldNotifyRelease (compile : String → Option (String → Bool))
    (release : GitHubRelease) (filters : ReleaseFilters) : Bool :=
  if release.draft then false
  else if filters.include_prereleases == some false && release.prerelease then
    false
  else
    match filters.tag_regex with
    | some pat =>
        if pat == "" then true
        else
          match compile pat with
          | none => true
          | some test =>
              if !test release.tag_name then false
              else true
    | none => true

/-- sendNotification, src/unnamed/part_003 lines 150 to 198. The deliver
argument models telegram.sendMessage (ok or a thrown error message).
Message formatting is external presentation logic and not modelled.
Non-telegram channel kinds throw a not-yet-implemented error; a telegram
channel without a chat_id throws. -/
def sendNotification (deliver : Channel → Except String Unit)
    (channel : Channel) (kind : String) : Except String Unit :=
  if channel.type == "telegram" then
    match channel.chat_id with
    | none => Except.error "Missing chat_id for Telegram channel"
    | some _ =>
        if kind == "release" || kind == "commit" then deliver channel
        else Except.error ("Unknown event kind: " ++ kind)
  else if channel.type == "email" then
    Except.error "Email delivery not yet implemented"
  else if channel.type == "slack" then
    Except.error "Slack delivery not yet implemented"
  else if channel.type == "webhook" then
    Except.error "Webhook delivery not yet implemented"
  else Except.error ("Unknown channel type: " ++ channel.type)

/-- processSubscription, src/unnamed/part_003 lines 69 to 113: evaluate
shouldNotify and stop when it returns false; for each channel create a
notification row and attempt delivery, marking the row sent or error. The
whole body sits in a try/catch, so an exception thrown by shouldNotify
(the error arm) is caught and the subscription is skipped with no rows
created. -/
def processSubscription (compile : String → Option (String → Bool))
    (deliver : Channel → Except String Unit) (sub : SubRow) (eventId : Nat)
    (release : GitHubRelease) (db : NotifDB) (now : Nat) : NotifDB :=
  match shouldNotify compile "release" release sub.filters with
  | Except.error _ => db
  | Except.ok false => db
  | Except.ok true =>
      sub.channels.foldl
        (fun acc ch =>
          let created := createNotification acc eventId sub.id ch.type
          match sendNotification deliver ch "release" with
          | Except.ok _ =>
              updateNotificationStatus created.1 created.2 "sent" none now
          | Except.error e =>
              updateNotificationStatus created.1 created.2 "error" (some e) now)
        db

/-- retryFailedNotifications, src/unnamed/part_003 lines 201 to 236: fetch
the failed notifications (ceiling 3), and for each one look up its channel
in the channels_json of its subscription (skipping when absent), attempt
delivery, and mark the row sent or error. The channelsOf and kindOf
arguments model the joined subscription channels and event kind columns of
the getFailedNotifications query. This is the per-notification body of the
retry loop. -/
def retryStep (deliver : Channel → Except String Unit)
    (channelsOf : Nat → List Channel) (kindOf : Nat → String) (now : Nat)
    (acc : NotifDB) (n : NotifRow) : NotifDB :=
  match (channelsOf n.subscription_id).find? (fun c => c.type == n.channel) with
  | none => acc
  | some ch =>
      match sendNotification deliver ch (kindOf n.event_id) with
      | Except.ok _ => updateNotificationStatus acc n.id "sent" none now
      | Except.error e => updateNotificationStatus acc n.id "error" (some e) now

/-- retryFailedNotifications proper: fold retryStep over the selected
failed notifications. -/
def retryFailedNotifications (deliver : Channel → Except String Unit)
    (channelsOf : Nat → List Channel) (kindOf : Nat → String) (db : NotifDB)
    (now : Nat) : NotifDB :=
  (getFailedNotifications 3 now db).foldl
    (retryStep deliver channelsOf kindOf now) db

/-- A JS value as seen by Promise.allSettled: either a promise tracking an
in-flight poll task, or undefined. -/
inductive JsValue where
  | promiseOf (taskId : Nat)
  | undef
deriving DecidableEq

/-- ExecutionContext.waitUntil of the Workers runtime has the signature
waitUntil(promise) returning void: it registers the promise with the
runtime and hands back undefined, not the promise. -/
def ctxWaitUntil (taskId : Nat) : JsValue := JsValue.undef

/-- Promise.allSettled awaits the settlement of exactly the promise
elements of its argument; a non-promise element counts as already
settled. The result lists the task ids whose settlement the await
guarantees. -/
def allSettledAwaited (xs : List JsValue) : List Nat :=
  xs.filterMap fun v =>
    match v with
    | JsValue.promiseOf t => some t
    | JsValue.undef => none

/-- One observable action of a scheduled invocation: spawning the poll of a
repo (the call inside ctx.waitUntil starts the task) in a given batch, or
an await that guarantees the settlement of the listed tasks. -/
inductive SchedAction where
  | spawn (batchIdx : Nat) (repoId : Nat)
  | joinAll (settled : List Nat)
deriving DecidableEq

/-- The batches produced by the loop for (i = 0; i < n; i += batchSize)
with repos.slice(i, i + batchSize), via a fuel argument for termination. -/
def chunksAux (batchSize : Nat) : Nat → List Nat → List (List Nat)
  | 0, _ => []
  | _, [] => []
  | fuel + 1, l => l.take batchSize :: chunksAux batchSize fuel (l.drop batchSize)

/-- Batches of the scheduled loop over the repo ids. -/
def chunks (batchSize : Nat) (l : List Nat) : List (List Nat) :=
  chunksAux batchSize l.length l

/-- The action trace of scheduled, src/src/workers/poller.ts lines 19 to 27
(and src/src/workers/simple-poller.ts lines 22 to 30): per batch, each repo
poll is started inside ctx.waitUntil, the void return values are collected
into the promises array, and await Promise.allSettled(promises) guarantees
the settlement of exactly the promise elements of that array. -/
def scheduledTrace (repoIds : List Nat) (batchSize : Nat) : List SchedAction :=
  ((chunks batchSize repoIds).enum.map fun bi =>
    (bi.2.map (SchedAction.spawn bi.1)) ++
      [SchedAction.joinAll (allSettledAwaited (bi.2.map ctxWaitUntil))]).flatten

/-- Checks the batch-synchronization property over a trace: at every spawn
of a task in batch b, every task spawned in a strictly earlier batch must
already be guaranteed settled by a preceding joinAll. -/
def checkBatchSync (joined : List Nat) (spawned : List (Nat × Nat)) :
    List SchedAction → Bool
  | [] => true
  | SchedAction.spawn b t :: rest =>
      spawned.all (fun p => !decide (p.1 < b) || joined.contains p.2) &&
        checkBatchSync joined ((b, t) :: spawned) rest
  | SchedAction.joinAll s :: rest =>
      checkBatchSync (joined ++ s) spawned rest

/-- A tracked repo used for concrete runs. -/
def repoA : Repo :=
  { id := 7, owner := "acme", name := "widget", consecutive_errors := 0,
    last_polled_at := none }

/-- A plain published release with the given id and tag. -/
def mkRel (i : Nat) (tag : String) : GitHubRelease :=
  { id := i, tag_name := tag, name := tag, body := "", html_url := "",
    published_at := 1700000000000 + i, prerelease := false, draft := false }

/-- Release fixtures for the concrete scenarios. -/
def rel10 : GitHubRelease := mkRel 10 "v1"

/-- Second release fixture. -/
def rel20 : GitHubRelease := mkRel 20 "v2"

/-- Third release fixture. -/
def rel30 : GitHubRelease := mkRel 30 "v3"

/-- Fourth release fixture, the genuinely new item of cycle two. -/
def rel40 : GitHubRelease := mkRel 40 "v4"

/-- A draft release fixture. -/
def relDraft : GitHubRelease :=
  { mkRel 35 "v3.5-draft" with draft := true }

/-- First-cycle upstream response, newest first. -/
def respCycle1 : GitHubResponse :=
  GitHubResponse.okJson [rel30, rel20, rel10] (some "etag1") none

/-- Second-cycle upstream response, newest first. -/
def respCycle2 : GitHubResponse :=
  GitHubResponse.okJson [rel40, rel30, rel20] (some "etag2") none

/-- A regular-expression engine in which every pattern compiles and every
string matches. -/
def compileAny : String → Option (String → Bool) := fun _ => some fun _ => true

/-- A regular-expression engine in which the pattern consisting of a single
opening parenthesis fails to compile (as in JS) and every other pattern
compiles to a match-everything test. -/
def compileParen : String → Option (String → Bool) :=
  fun p => if p == "(" then none else some fun _ => true

/-- A delivery channel that always succeeds. -/
def deliverOk : Channel → Except String Unit := fun _ => Except.ok ()

/-- A subscription with no filters and one verified telegram channel. -/
def subAll : SubRow :=
  { id := 9, filters := { include_prereleases := none, tag_regex := none },
    channels := [{ type := "telegram", chat_id := some "chat1" }] }

/-- A subscription whose stored pattern is the invalid regex. -/
def subParen : SubRow :=
  { id := 5, filters := { include_prereleases := none, tag_regex := some "(" },
    channels := [{ type := "telegram", chat_id := some "chat1" }] }

/-- A failing resource outside the minute-0 shard: its consecutive_errors
exceed the ceiling and its last poll is far older than the cool-down. -/
def repoX : Repo :=
  { id := 1, owner := "a", name := "x", consecutive_errors := 6,
    last_polled_at := some 0 }

/-- A failing resource inside the minute-0 shard whose last poll is within
the cool-down window. -/
def repoY : Repo :=
  { id := 60, owner := "b", name := "y", consecutive_errors := 6,
    last_polled_at := some 999999 }

/-- A healthy resource inside the minute-0 shard, never polled. -/
def repoZ : Repo :=
  { id := 120, owner := "c", name := "z", consecutive_errors := 0,
    last_polled_at := none }

/-- The i-th failed-notification fixture: status error, one attempt, failed
at time i. -/
def c9row (i : Nat) : NotifRow :=
  { id := i + 1, event_id := 1, subscription_id := 1, channel := "telegram",
    status := "error", attempts := 1, last_error := some "boom",
    last_error_at := some i, sent_at := none }

/-- A notifications table holding 51 eligible failed rows. -/
def db51 : NotifDB := { rows := (List.range 51).map c9row, nextId := 52 }

/-- A failed notification whose attempts already reached the ceiling. -/
def nDead : NotifRow :=
  { id := 1, event_id := 1, subscription_id := 9, channel := "telegram",
    status := "error", attempts := 3, last_error := some "boom",
    last_error_at := some 0, sent_at := none }

/-- An upstream response containing a draft among the releases. -/
def respWithDraft : GitHubResponse :=
  GitHubResponse.okJson [relDraft, rel30] (some "etag1") none

/-- The event row the first poll of respWithDraft creates for release 30. -/
def eRow30 : EventRow :=
  { id := 1, repo_id := 7, kind := "release", external_id := "30",
    payload := rel30, occurred_at := rel30.published_at / 1000 }

/-
Theorems. Helper lemmas come first, then one theorem per claim (with its
counterexample and witness where required).
-/

theorem jsIncludes_unique :
    jsIncludes uniqueViolationMsg "UNIQUE constraint failed" = true := by
  decide

theorem createEvent_dup (db : EventsDB) (repoId : Nat)
    (kind externalId : String) (payload : GitHubRelease) (occurredAt : Nat)
    (h : hasEventTriple db repoId kind externalId = true) :
    createEvent db repoId kind externalId payload occurredAt none =
      Except.ok (none, db) := by
  simp [createEvent, d1InsertEvent, h, jsIncludes_unique]

theorem createEvent_fresh (db : EventsDB) (repoId : Nat)
    (kind externalId : String) (payload : GitHubRelease) (occurredAt : Nat)
    (h : hasEventTriple db repoId kind externalId = false) :
    createEvent db repoId kind externalId payload occurredAt none =
      Except.ok (some db.nextId,
        { rows := db.rows ++
            [{ id := db.nextId, repo_id := repoId, kind := kind,
               external_id := externalId, payload := payload,
               occurred_at := occurredAt }],
          nextId := db.nextId + 1 }) := by
  simp [createEvent, d1InsertEvent, h]

theorem createEvent_fault_free (db : EventsDB) (repoId : Nat)
    (kind externalId : String) (payload : GitHubRelease) (occurredAt : Nat) :
    ∃ r, createEvent db repoId kind externalId payload occurredAt none =
      Except.ok r := by
  cases h : hasEventTriple db repoId kind externalId
  · exact ⟨_, createEvent_fresh db repoId kind externalId payload occurredAt h⟩
  · exact ⟨_, createEvent_dup db repoId kind externalId payload occurredAt h⟩

/-- Claim C2 (confirmed): inserting a (resource_id, kind, external_id)
triple that is already recorded creates no second Event row and returns the
duplicate signal (none); a successful insert records the triple, so the
second of two identical inserts always hits the duplicate case; and an
insert failure whose message is not the uniqueness violation propagates as
an error to the caller. -/
theorem c2_event_dedup :
    (∀ db repoId kind externalId payload occurredAt,
        hasEventTriple db repoId kind externalId = true →
        createEvent db repoId kind externalId payload occurredAt none =
          Except.ok (none, db)) ∧
    (∀ db repoId kind externalId payload occurredAt rowId db2,
        createEvent db repoId kind externalId payload occurredAt none =
          Except.ok (some rowId, db2) →
        hasEventTriple db2 repoId kind externalId = true) ∧
    (∀ db repoId kind externalId payload occurredAt msg,
        jsIncludes msg "UNIQUE constraint failed" = false →
        createEvent db repoId kind externalId payload occurredAt (some msg) =
          Except.error msg) := by
  refine ⟨fun db repoId kind externalId payload occurredAt h =>
      createEvent_dup db repoId kind externalId payload occurredAt h,
    ?_, ?_⟩
  · intro db repoId kind externalId payload occurredAt rowId db2 h
    cases hT : hasEventTriple db repoId kind externalId
    · rw [createEvent_fresh db repoId kind externalId payload occurredAt hT] at h
      injection h with h
      injection h with h1 h2
      subst h2
      simp [hasEventTriple, List.any_append]
    · rw [createEvent_dup db repoId kind externalId payload occurredAt hT] at h
      injection h with h
      injection h with h1 h2
      exact absurd h1 (by simp)
  · intro db repoId kind externalId payload occurredAt msg h
    simp [createEvent, d1InsertEvent, h]

/-- Witness for C2 at concrete inputs: a duplicate insert of release 30
into a table already holding it returns none and leaves the table
unchanged, and a disk-style failure message propagates. -/
theorem c2_event_dedup_witness :
    createEvent
        { rows := [{ id := 1, repo_id := 7, kind := "release",
                     external_id := "30", payload := rel30,
                     occurred_at := 1700000000 }], nextId := 2 }
        7 "release" "30" rel30 1700000000 none =
      Except.ok (none,
        { rows := [{ id := 1, repo_id := 7, kind := "release",
                     external_id := "30", payload := rel30,
                     occurred_at := 1700000000 }], nextId := 2 }) ∧
    createEvent { rows := [], nextId := 1 } 7 "release" "30" rel30 1700000000
        (some "disk failure while writing") =
      Except.error "disk failure while writing" :=
  ⟨c2_event_dedup.1 _ 7 "release" "30" rel30 1700000000 (by decide),
   c2_event_dedup.2.2 _ 7 "release" "30" rel30 1700000000
     "disk failure while writing" (by decide)⟩

/-- Claim C3 (code_bug): with eleven due repos and batch size 10 (the
poller), and with six due repos and batch size 5 (the simple poller), the
scheduled loop spawns a second-batch poll although no first-batch poll has
been awaited: every Promise.allSettled await in the trace guarantees the
settlement of no poll task, because the promises array holds the void
return values of ctx.waitUntil, so the claimed batch synchronization fails.
-/
theorem c3_batch_no_wait :
    checkBatchSync [] [] (scheduledTrace (List.range 11) 10) = false ∧
    (scheduledTrace (List.range 11) 10).all
      (fun a => match a with
        | SchedAction.joinAll s => s.isEmpty
        | _ => true) = true ∧
    SchedAction.spawn 1 10 ∈ scheduledTrace (List.range 11) 10 ∧
    checkBatchSync [] [] (scheduledTrace (List.range 6) 5) = false ∧
    SchedAction.spawn 1 5 ∈ scheduledTrace (List.range 6) 5 := by
  decide

/-- Claim C4 (code_bug): in the queue notifier a subscription whose stored
pattern is the invalid regex left parenthesis produces zero notification
rows for a matching release event (shouldNotify throws and the catch-all
skips the subscription), even though the filter utility shouldNotifyRelease
fails open on the same inputs as the claim and the spec require. -/
theorem c4_invalid_pattern_fails_closed :
    processSubscription compileParen deliverOk subParen 1 rel40
        { rows := [], nextId := 1 } 1000 = { rows := [], nextId := 1 } ∧
    shouldNotify compileParen "release" rel40 subParen.filters =
      Except.error "SyntaxError: invalid regular expression: (" ∧
    shouldNotifyRelease compileParen rel40 subParen.filters = true := by
  exact ⟨rfl, rfl, rfl⟩

/-- Counterexample for C5: the code selects neither repoX (outside the
minute-0 shard, errors above the ceiling, last polled far before the
cool-down cutoff, hence selected according to the claim by its re-probe
clause) nor repoY (inside the shard, hence selected according to the claim
by its shard clause, but skipped because its errors reached the ceiling and
its last poll is within the cool-down). -/
theorem c5_shard_counterexample :
    getReposForPolling 0 1000000 [repoX, repoY] = [] ∧
    repoX.id % 60 ≠ 0 ∧ 5 < repoX.consecutive_errors ∧
    repoX.last_polled_at = some 0 ∧ (0 : Nat) < 1000000 - 300000 ∧
    repoY.id % 60 = 0 ∧ 5 ≤ repoY.consecutive_errors := by
  decide

theorem repoPollPred_iff (minute now : Nat) (r : Repo) :
    repoPollPred minute now r = true ↔
      (r.id % 60 = minute ∧
        (r.consecutive_errors < 5 ∨ r.last_polled_at = none ∨
          ∃ t, r.last_polled_at = some t ∧ t < now - 300000)) := by
  cases h : r.last_polled_at <;>
    simp [repoPollPred, h, Bool.and_eq_true, Bool.or_eq_true, beq_iff_eq,
      decide_eq_true_iff]

/-- Claim C5 (corrected): the selection predicate requires shard membership
(id mod 60 = minute) in every case, with the cool-down re-probe only as an
alternative to the error ceiling inside the shard; every selected repo
satisfies it, and when at most 100 repos qualify the selection is exactly
the qualifying repos. -/
theorem c5_shard_amended (minute now : Nat) (repos : List Repo) (r : Repo) :
    (repoPollPred minute now r = true ↔
      (r.id % 60 = minute ∧
        (r.consecutive_errors < 5 ∨ r.last_polled_at = none ∨
          ∃ t, r.last_polled_at = some t ∧ t < now - 300000))) ∧
    (r ∈ getReposForPolling minute now repos →
       r ∈ repos ∧ repoPollPred minute now r = true) ∧
    ((repos.filter (repoPollPred minute now)).length ≤ 100 →
       (r ∈ getReposForPolling minute now repos ↔
          r ∈ repos ∧ repoPollPred minute now r = true)) := by
  refine ⟨repoPollPred_iff minute now r, ?_, ?_⟩
  · intro h
    have h1 := List.mem_of_mem_take h
    rw [List.mem_insertionSort, List.mem_filter] at h1
    exact h1
  · intro hlen
    unfold getReposForPolling
    rw [List.take_of_length_le (by rwa [List.length_insertionSort]),
      List.mem_insertionSort, List.mem_filter]

/-- Witness for C5 at a concrete input: with a single healthy shard-0 repo
the length side condition holds and the repo is selected. -/
theorem c5_shard_amended_witness :
    ([repoZ].filter (repoPollPred 0 1000000)).length ≤ 100 ∧
    repoZ ∈ getReposForPolling 0 1000000 [repoZ] :=
  ⟨by decide,
   ((c5_shard_amended 0 1000000 [repoZ] repoZ).2.2 (by decide)).mpr
     ⟨by decide, by decide⟩⟩

theorem mem_getFailedNotifications (maxAttempts now : Nat) (db : NotifDB)
    (m : NotifRow) (h : m ∈ getFailedNotifications maxAttempts now db) :
    m ∈ db.rows ∧ failedNotifPred maxAttempts now m = true := by
  have h1 := List.mem_of_mem_take h
  rw [List.mem_insertionSort, List.mem_filter] at h1
  exact h1

theorem failedNotifPred_iff (maxAttempts now : Nat) (n : NotifRow) :
    failedNotifPred maxAttempts now n = true ↔
      (n.status = "error" ∧ n.attempts < maxAttempts ∧
        (n.last_error_at = none ∨
          ∃ t, n.last_error_at = some t ∧ t < now - 300000)) := by
  cases h : n.last_error_at <;>
    simp [failedNotifPred, h, Bool.and_eq_true, beq_iff_eq,
      decide_eq_true_iff, and_assoc]

theorem mem_update_of_ne (db : NotifDB) (id : Nat) (status : String)
    (error : Option String) (now : Nat) (n : NotifRow) (h : n ∈ db.rows)
    (hne : n.id ≠ id) :
    n ∈ (updateNotificationStatus db id status error now).rows := by
  simp only [updateNotificationStatus]
  refine List.mem_map.mpr ⟨n, h, ?_⟩
  simp [beq_iff_eq, hne]

theorem retryStep_cases (deliver : Channel → Except String Unit)
    (channelsOf : Nat → List Channel) (kindOf : Nat → String) (now : Nat)
    (acc : NotifDB) (m : NotifRow) :
    retryStep deliver channelsOf kindOf now acc m = acc ∨
      ∃ status error, retryStep deliver channelsOf kindOf now acc m =
        updateNotificationStatus acc m.id status error now := by
  rcases hf : (channelsOf m.subscription_id).find? (fun c => c.type == m.channel)
    with _ | ch
  · exact Or.inl (by simp only [retryStep, hf])
  · rcases hs : sendNotification deliver ch (kindOf m.event_id) with e | u
    · exact Or.inr ⟨"error", some e, by simp only [retryStep, hf, hs]⟩
    · exact Or.inr ⟨"sent", none, by simp only [retryStep, hf, hs]⟩

theorem mem_foldl_retryStep (deliver : Channel → Except String Unit)
    (channelsOf : Nat → List Channel) (kindOf : Nat → String) (now : Nat)
    (n : NotifRow) (L : List NotifRow) :
    ∀ db0 : NotifDB, n ∈ db0.rows → (∀ m ∈ L, m.id ≠ n.id) →
      n ∈ (L.foldl (retryStep deliver channelsOf kindOf now) db0).rows := by
  induction L with
  | nil => intro db0 h _; exact h
  | cons m rest ih =>
      intro db0 h hids
      rw [List.foldl_cons]
      refine ih _ ?_ (fun x hx => hids x (List.mem_cons_of_mem m hx))
      have hne : n.id ≠ m.id := fun he => hids m (List.mem_cons_self m rest) he.symm
      rcases retryStep_cases deliver channelsOf kindOf now db0 m with
        hcase | ⟨status, error, hcase⟩
      · rw [hcase]; exact h
      · rw [hcase]; exact mem_update_of_ne db0 m.id status error now n h hne

/-- Counterexample for C9: with 51 eligible failed notifications the sweep
selection keeps only the oldest 50, so the newest eligible failure is not
re-attempted in this sweep even though it satisfies every condition of the
claim. -/
theorem c9_retry_counterexample :
    failedNotifPred 3 1000000 (c9row 50) = true ∧
    c9row 50 ∈ db51.rows ∧
    c9row 50 ∉ getFailedNotifications 3 1000000 db51 ∧
    (getFailedNotifications 3 1000000 db51).length = 50 := by
  decide

/-- Claim C9 (corrected): every selected notification has status error,
attempts below the ceiling and a last_error_at older than the cool-down (or
null); when at most 50 rows qualify the selection is exactly the qualifying
rows; the selection is ordered oldest failure first; a notification whose
attempts reached the ceiling is never selected; and, provided its id is
unique in the table, the retry sweep leaves such an exhausted row untouched
in the table, so it remains in status error. -/
theorem c9_retry_amended (now : Nat) (db : NotifDB) (n : NotifRow)
    (deliver : Channel → Except String Unit) (channelsOf : Nat → List Channel)
    (kindOf : Nat → String) :
    (n ∈ getFailedNotifications 3 now db →
       n ∈ db.rows ∧ n.status = "error" ∧ n.attempts < 3 ∧
         (n.last_error_at = none ∨
           ∃ t, n.last_error_at = some t ∧ t < now - 300000)) ∧
    ((db.rows.filter (failedNotifPred 3 now)).length ≤ 50 →
       (n ∈ getFailedNotifications 3 now db ↔
          n ∈ db.rows ∧ failedNotifPred 3 now n = true)) ∧
    List.Sorted lastErrorOrder (getFailedNotifications 3 now db) ∧
    (3 ≤ n.attempts → n ∉ getFailedNotifications 3 now db) ∧
    (3 ≤ n.attempts → n ∈ db.rows → (∀ m ∈ db.rows, m.id = n.id → m = n) →
       n ∈ (retryFailedNotifications deliver channelsOf kindOf db now).rows) := by
  refine ⟨?_, ?_, ?_, ?_, ?_⟩
  · intro h
    obtain ⟨hmem, hpred⟩ := mem_getFailedNotifications 3 now db n h
    obtain ⟨h1, h2, h3⟩ := (failedNotifPred_iff 3 now n).mp hpred
    exact ⟨hmem, h1, h2, h3⟩
  · intro hlen
    unfold getFailedNotifications
    rw [List.take_of_length_le (by rwa [List.length_insertionSort]),
      List.mem_insertionSort, List.mem_filter]
  · exact (List.sorted_insertionSort lastErrorOrder _).sublist
      (List.take_sublist _ _)
  · intro hatt h
    obtain ⟨_, hpred⟩ := mem_getFailedNotifications 3 now db n h
    have := ((failedNotifPred_iff 3 now n).mp hpred).2.1
    omega
  · intro hatt hmem huniq
    refine mem_foldl_retryStep deliver channelsOf kindOf now n
      (getFailedNotifications 3 now db) db hmem ?_
    intro m hm heq
    obtain ⟨hmdb, hpred⟩ := mem_getFailedNotifications 3 now db m hm
    have hmn : m = n := huniq m hmdb heq
    subst hmn
    have := ((failedNotifPred_iff 3 now m).mp hpred).2.1
    omega

/-- Witness for C9 at a concrete input: an exhausted failed notification
(attempts at the ceiling) is not selected and survives a sweep unchanged.
-/
theorem c9_retry_amended_witness :
    3 ≤ nDead.attempts ∧
    nDead ∉ getFailedNotifications 3 1000000 { rows := [nDead], nextId := 2 } ∧
    nDead ∈ (retryFailedNotifications deliverOk (fun _ => [])
        (fun _ => "release") { rows := [nDead], nextId := 2 } 1000000).rows :=
  ⟨by decide,
   (c9_retry_amended 1000000 { rows := [nDead], nextId := 2 } nDead deliverOk
       (fun _ => []) (fun _ => "release")).2.2.2.1 (by decide),
   (c9_retry_amended 1000000 { rows := [nDead], nextId := 2 } nDead deliverOk
       (fun _ => []) (fun _ => "release")).2.2.2.2 (by decide)
     (List.mem_singleton.mpr rfl)
     (fun m hm _ => List.eq_of_mem_singleton hm)⟩

theorem filter_idem {α : Type} (p : α → Bool) (l : List α) :
    (l.filter p).filter p = l.filter p := by
  induction l with
  | nil => rfl
  | cons a l ih =>
      by_cases h : p a = true
      · simp [List.filter_cons, h, ih]
      · simp [List.filter_cons, h, ih]

theorem pollReleases_okJson (repo : Repo) (st : Option PollState)
    (rels : List GitHubRelease) (etag lm : Option String) (db : EventsDB)
    (now : Nat) :
    pollReleases repo st (GitHubResponse.okJson rels etag lm) db now =
      (if (rels.filter fun r => !r.draft).isEmpty then
        { db := db, queued := [],
          kvPut := some { lastSeenId := st.bind fun s => s.lastSeenId,
                          etag := etag, lastModified := lm, checkedAt := now },
          thrown := none }
      else
        { db := (processNewReleases repo.id db
            (newReleasesOf (st.bind fun s => s.lastSeenId)
              (rels.filter fun r => !r.draft)).reverse).1,
          queued := (processNewReleases repo.id db
            (newReleasesOf (st.bind fun s => s.lastSeenId)
              (rels.filter fun r => !r.draft)).reverse).2,
          kvPut := some { lastSeenId :=
                            some (maxReleaseId (rels.filter fun r => !r.draft)),
                          etag := etag, lastModified := lm, checkedAt := now },
          thrown := none }) := by
  simp only [pollReleases, getReleases, filter_idem, Bool.false_eq_true,
    if_false]

theorem pollReleasesAndNotify_okJson (repo : Repo) (st : Option PollState)
    (rels : List GitHubRelease) (etag lm : Option String) (db : EventsDB)
    (now : Nat) :
    pollReleasesAndNotify repo st (GitHubResponse.okJson rels etag lm) db now =
      (if (rels.filter fun r => !r.draft).isEmpty then
        { db := db, notified := [],
          kvPut := some { lastSeenId := st.bind fun s => s.lastSeenId,
                          etag := etag, lastModified := lm, checkedAt := now },
          thrown := none }
      else
        { db := (processNewReleasesNotify repo.id db
            (match (st.bind fun s => s.lastSeenId : Option Nat) with
             | some last =>
                 (List.filter (fun r : GitHubRelease => decide (last < r.id))
                   (List.filter (fun r : GitHubRelease => !r.draft) rels))
             | none => []).reverse).1,
          notified := (processNewReleasesNotify repo.id db
            (match (st.bind fun s => s.lastSeenId : Option Nat) with
             | some last =>
                 (List.filter (fun r : GitHubRelease => decide (last < r.id))
                   (List.filter (fun r : GitHubRelease => !r.draft) rels))
             | none => []).reverse).2,
          kvPut := some { lastSeenId :=
                            some (maxReleaseId (rels.filter fun r => !r.draft)),
                          etag := etag, lastModified := lm, checkedAt := now },
          thrown := none }) := by
  simp only [pollReleasesAndNotify, getReleases, filter_idem,
    Bool.false_eq_true, if_false]

theorem pollReleases_notModified (repo : Repo) (s : PollState) (db : EventsDB)
    (now : Nat) :
    pollReleases repo (some s) GitHubResponse.status304 db now =
      { db := db, queued := [],
        kvPut := some { lastSeenId := s.lastSeenId, etag := s.etag,
                        lastModified := s.lastModified, checkedAt := now },
        thrown := none } := by
  simp [pollReleases, getReleases]

theorem le_foldl_max (l : List Nat) (a : Nat) : a ≤ l.foldl max a := by
  induction l generalizing a with
  | nil => exact Nat.le_refl a
  | cons x l ih => exact Nat.le_trans (Nat.le_max_left a x) (ih (max a x))

theorem mem_le_foldl_max (l : List Nat) : ∀ a : Nat, ∀ x ∈ l, x ≤ l.foldl max a := by
  induction l with
  | nil => intro a x hx; cases hx
  | cons y l ih =>
      intro a x hx
      rw [List.foldl_cons]
      rcases List.mem_cons.mp hx with h | h
      · subst h; exact Nat.le_trans (Nat.le_max_right a x) (le_foldl_max l (max a x))
      · exact ih (max a y) x h

theorem foldl_max_mem (l : List Nat) : ∀ a : Nat, l.foldl max a = a ∨ l.foldl max a ∈ l := by
  induction l with
  | nil => intro a; exact Or.inl rfl
  | cons y l ih =>
      intro a
      rw [List.foldl_cons]
      rcases ih (max a y) with h | h
      · rcases Nat.le_total y a with hle | hle
        · exact Or.inl (by rw [h, Nat.max_eq_left hle])
        · exact Or.inr (by rw [h, Nat.max_eq_right hle]; exact List.mem_cons_self y l)
      · exact Or.inr (List.mem_cons_of_mem y h)

theorem maxReleaseId_spec (r0 : GitHubRelease) (rest : List GitHubRelease) :
    maxReleaseId (r0 :: rest) ∈ (r0 :: rest).map (fun r => r.id) ∧
      ∀ i ∈ (r0 :: rest).map (fun r => r.id), i ≤ maxReleaseId (r0 :: rest) := by
  constructor
  · unfold maxReleaseId
    rcases foldl_max_mem ((r0 :: rest).map fun r => r.id) 0 with h | h
    · have h0 : r0.id ≤ 0 := by
        have := mem_le_foldl_max ((r0 :: rest).map fun r => r.id) 0 r0.id (by simp)
        omega
      rw [h]
      have : r0.id = 0 := by omega
      rw [← this]
      simp
    · exact h
  · intro i hi
    exact mem_le_foldl_max _ 0 i hi

/-- Claim C6 (confirmed): for a modified response whose post-draft-filter
list is non-empty, both pollers store a cursor whose lastSeenId is the
maximum id over all fetched (non-draft) items, not only the new ones, and
whose etag and lastModified are the fresh response values. -/
theorem c6_cursor_advance (repo : Repo) (st : Option PollState)
    (rels rest : List GitHubRelease) (r0 : GitHubRelease)
    (etag lm : Option String) (db : EventsDB) (now : Nat)
    (hfil : rels.filter (fun r => !r.draft) = r0 :: rest) :
    ∃ M,
      (pollReleases repo st (GitHubResponse.okJson rels etag lm) db now).kvPut =
        some { lastSeenId := some M, etag := etag, lastModified := lm,
               checkedAt := now } ∧
      (pollReleasesAndNotify repo st (GitHubResponse.okJson rels etag lm)
          db now).kvPut =
        some { lastSeenId := some M, etag := etag, lastModified := lm,
               checkedAt := now } ∧
      M ∈ (r0 :: rest).map (fun r => r.id) ∧
      ∀ i ∈ (r0 :: rest).map (fun r => r.id), i ≤ M := by
  refine ⟨maxReleaseId (r0 :: rest), ?_, ?_, (maxReleaseId_spec r0 rest).1,
    (maxReleaseId_spec r0 rest).2⟩
  · rw [pollReleases_okJson, hfil]
    simp
  · rw [pollReleasesAndNotify_okJson, hfil]
    simp

/-- Witness for C6 at the concrete first-cycle scenario. -/
theorem c6_cursor_advance_witness :
    ∃ M,
      (pollReleases repoA none respCycle1 { rows := [], nextId := 1 }
          1000).kvPut =
        some { lastSeenId := some M, etag := some "etag1",
               lastModified := none, checkedAt := 1000 } ∧
      (pollReleasesAndNotify repoA none respCycle1 { rows := [], nextId := 1 }
          1000).kvPut =
        some { lastSeenId := some M, etag := some "etag1",
               lastModified := none, checkedAt := 1000 } ∧
      M ∈ ([rel30, rel20, rel10]).map (fun r => r.id) ∧
      ∀ i ∈ ([rel30, rel20, rel10]).map (fun r => r.id), i ≤ M :=
  c6_cursor_advance repoA none [rel30, rel20, rel10] [rel20, rel10] rel30
    (some "etag1") none { rows := [], nextId := 1 } 1000 (by decide)

/-- Claim C7 (confirmed): a 304 cycle creates no event, queues no
notification message, and rewrites the cursor with only checkedAt changed;
over any run of consecutive 304 cycles the events table is unchanged, no
message is ever queued, and the final cursor keeps the original lastSeenId,
etag and lastModified. -/
theorem c7_not_modified_frame (repo : Repo) (s : PollState) (db : EventsDB)
    (cycles : List (GitHubResponse × Nat))
    (h : ∀ c ∈ cycles, c.1 = GitHubResponse.status304) :
    (∀ t, pollReleases repo (some s) GitHubResponse.status304 db t =
      { db := db, queued := [],
        kvPut := some { lastSeenId := s.lastSeenId, etag := s.etag,
                        lastModified := s.lastModified, checkedAt := t },
        thrown := none }) ∧
    (runPollCycles repo (some s) db cycles).2.1 = db ∧
    (runPollCycles repo (some s) db cycles).2.2 = [] ∧
    ∃ s2, (runPollCycles repo (some s) db cycles).1 = some s2 ∧
      s2.lastSeenId = s.lastSeenId ∧ s2.etag = s.etag ∧
      s2.lastModified = s.lastModified := by
  refine ⟨fun t => pollReleases_notModified repo s db t, ?_⟩
  induction cycles generalizing s with
  | nil => exact ⟨rfl, rfl, s, rfl, rfl, rfl, rfl⟩
  | cons c rest ih =>
      obtain ⟨resp, t⟩ := c
      have hresp : resp = GitHubResponse.status304 := h (resp, t) (List.mem_cons_self _ _)
      subst hresp
      have hrest : ∀ c ∈ rest, c.1 = GitHubResponse.status304 :=
        fun c hc => h c (List.mem_cons_of_mem _ hc)
      simp only [runPollCycles, pollReleases_notModified repo s db t]
      obtain ⟨h1, h2, s2, h3, h4, h5, h6⟩ :=
        ih { lastSeenId := s.lastSeenId, etag := s.etag,
             lastModified := s.lastModified, checkedAt := t } hrest
      exact ⟨h1, by simp [h2], s2, h3, h4, h5, h6⟩

/-- Witness for C7 at a concrete three-cycle 304 run. -/
theorem c7_not_modified_frame_witness :
    (runPollCycles repoA
        (some { lastSeenId := some 30, etag := some "etag1",
                lastModified := none, checkedAt := 1000 })
        { rows := [], nextId := 1 }
        [(GitHubResponse.status304, 1060), (GitHubResponse.status304, 1120),
         (GitHubResponse.status304, 1180)]).2.1 = { rows := [], nextId := 1 } ∧
    ∃ s2, (runPollCycles repoA
        (some { lastSeenId := some 30, etag := some "etag1",
                lastModified := none, checkedAt := 1000 })
        { rows := [], nextId := 1 }
        [(GitHubResponse.status304, 1060), (GitHubResponse.status304, 1120),
         (GitHubResponse.status304, 1180)]).1 = some s2 ∧
      s2.lastSeenId = some 30 ∧ s2.etag = some "etag1" ∧ s2.lastModified = none :=
  ⟨(c7_not_modified_frame repoA
      { lastSeenId := some 30, etag := some "etag1", lastModified := none,
        checkedAt := 1000 } { rows := [], nextId := 1 } _
      (by intro c hc; fin_cases hc <;> rfl)).2.1,
   let h := (c7_not_modified_frame repoA
      { lastSeenId := some 30, etag := some "etag1", lastModified := none,
        checkedAt := 1000 } { rows := [], nextId := 1 }
      [(GitHubResponse.status304, 1060), (GitHubResponse.status304, 1120),
       (GitHubResponse.status304, 1180)]
      (by intro c hc; fin_cases hc <;> rfl)).2.2.2
   h⟩

theorem processNewReleases_queued_sublist (repoId : Nat) :
    ∀ (L : List GitHubRelease) (db : EventsDB),
      List.Sublist (processNewReleases repoId db L).2
        (L.map (fun r => { repo_id := repoId, kind := "release",
                           external_id := toString r.id : EventMessage })) := by
  intro L
  induction L with
  | nil => intro db; simp [processNewReleases]
  | cons r rest ih =>
      intro db
      rw [List.map_cons]
      cases hT : hasEventTriple db repoId "release" (toString r.id) with
      | true =>
          simp only [processNewReleases,
            createEvent_dup db repoId "release" (toString r.id) r
              (r.published_at / 1000) hT]
          exact List.Sublist.cons _ (ih db)
      | false =>
          simp only [processNewReleases,
            createEvent_fresh db repoId "release" (toString r.id) r
              (r.published_at / 1000) hT]
          split
          · exact List.Sublist.cons _ (ih _)
          · exact List.Sublist.cons₂ _ (ih _)

theorem newReleasesOf_subset (opt : Option Nat) (l : List GitHubRelease) :
    ∀ r ∈ newReleasesOf opt l, r ∈ l := by
  intro r hr
  cases opt with
  | some last => exact List.mem_of_mem_filter hr
  | none => exact List.mem_of_mem_take hr

/-- Claim C8 (confirmed): when the provider list is strictly newest-first
and a cursor is stored, the items the poller iterates are exactly the
reverse of the new-item sublist of the fetched order, they are in strictly
ascending id order, and the queue messages are emitted in that order (a
sublist of it, since an already-recorded item is skipped). -/
theorem c8_oldest_first (repo : Repo) (s : PollState) (last : Nat)
    (rels : List GitHubRelease) (etag lm : Option String) (db : EventsDB)
    (now : Nat) (hseen : s.lastSeenId = some last)
    (hdesc : rels.Pairwise fun a b => b.id < a.id)
    (hdraft : ∀ r ∈ rels, r.draft = false) :
    (newReleasesOf (some last) rels).reverse =
      (rels.filter fun r => decide (last < r.id)).reverse ∧
    ((newReleasesOf (some last) rels).reverse).Pairwise
      (fun a b => a.id < b.id) ∧
    ∃ q,
      (pollReleases repo (some s) (GitHubResponse.okJson rels etag lm)
          db now).queued = q ∧
      List.Sublist q (((newReleasesOf (some last) rels).reverse).map
        (fun r => { repo_id := repo.id, kind := "release",
                    external_id := toString r.id : EventMessage })) := by
  have hfr : rels.filter (fun r => !r.draft) = rels :=
    List.filter_eq_self.mpr fun r hr => by simp [hdraft r hr]
  refine ⟨rfl, ?_, ?_⟩
  · simp only [newReleasesOf]
    rw [List.pairwise_reverse]
    exact List.Pairwise.filter _ hdesc
  · rw [pollReleases_okJson]
    simp only [hfr, Option.some_bind, hseen]
    split
    · refine ⟨[], rfl, ?_⟩
      have hnil : rels = [] := by
        rename_i hE
        exact List.isEmpty_iff.mp hE
      subst hnil
      simp [newReleasesOf]
    · exact ⟨_, rfl, processNewReleases_queued_sublist repo.id _ db⟩

/-- Witness for C8 at the concrete second-cycle scenario: cursor at 30,
fetch [40, 30, 20] newest first. -/
theorem c8_oldest_first_witness :
    ((newReleasesOf (some 30) [rel40, rel30, rel20]).reverse).Pairwise
      (fun a b => a.id < b.id) ∧
    ∃ q,
      (pollReleases repoA
          (some { lastSeenId := some 30, etag := some "etag1",
                  lastModified := none, checkedAt := 1000 })
          respCycle2 { rows := [], nextId := 1 } 1180).queued = q ∧
      List.Sublist q
        (((newReleasesOf (some 30) [rel40, rel30, rel20]).reverse).map
          (fun r => { repo_id := repoA.id, kind := "release",
                      external_id := toString r.id : EventMessage })) :=
  ⟨(c8_oldest_first repoA
      { lastSeenId := some 30, etag := some "etag1", lastModified := none,
        checkedAt := 1000 } 30 [rel40, rel30, rel20] (some "etag1") none
      { rows := [], nextId := 1 } 1180 rfl (by decide)
      (by intro r hr; fin_cases hr <;> rfl)).2.1,
   (c8_oldest_first repoA
      { lastSeenId := some 30, etag := some "etag1", lastModified := none,
        checkedAt := 1000 } 30 [rel40, rel30, rel20] (some "etag1") none
      { rows := [], nextId := 1 } 1180 rfl (by decide)
      (by intro r hr; fin_cases hr <;> rfl)).2.2⟩

theorem mem_processNewReleases_rows (repoId : Nat) :
    ∀ (L : List GitHubRelease) (db : EventsDB) (e : EventRow),
      e ∈ (processNewReleases repoId db L).1.rows →
      e ∈ db.rows ∨ ∃ r ∈ L, e.payload = r := by
  intro L
  induction L with
  | nil =>
      intro db e h
      exact Or.inl (by simpa [processNewReleases] using h)
  | cons r rest ih =>
      intro db e h
      cases hT : hasEventTriple db repoId "release" (toString r.id) with
      | true =>
          simp only [processNewReleases,
            createEvent_dup db repoId "release" (toString r.id) r
              (r.published_at / 1000) hT] at h
          rcases ih db e h with h1 | ⟨r2, hr2, hp⟩
          · exact Or.inl h1
          · exact Or.inr ⟨r2, List.mem_cons_of_mem r hr2, hp⟩
      | false =>
          simp only [processNewReleases,
            createEvent_fresh db repoId "release" (toString r.id) r
              (r.published_at / 1000) hT] at h
          split at h <;>
          · rcases ih _ e h with h1 | ⟨r2, hr2, hp⟩
            · rcases List.mem_append.mp h1 with h2 | h2
              · exact Or.inl h2
              · refine Or.inr ⟨r, List.mem_cons_self r rest, ?_⟩
                rw [List.mem_singleton.mp h2]
            · exact Or.inr ⟨r2, List.mem_cons_of_mem r hr2, hp⟩

theorem mem_processNewReleasesNotify_rows (repoId : Nat) :
    ∀ (L : List GitHubRelease) (db : EventsDB) (e : EventRow),
      e ∈ (processNewReleasesNotify repoId db L).1.rows →
      e ∈ db.rows ∨ ∃ r ∈ L, e.payload = r := by
  intro L
  induction L with
  | nil =>
      intro db e h
      exact Or.inl (by simpa [processNewReleasesNotify] using h)
  | cons r rest ih =>
      intro db e h
      cases hT : hasEventTriple db repoId "release" (toString r.id) with
      | true =>
          simp only [processNewReleasesNotify,
            createEvent_dup db repoId "release" (toString r.id) r
              (r.published_at / 1000) hT] at h
          rcases ih db e h with h1 | ⟨r2, hr2, hp⟩
          · exact Or.inl h1
          · exact Or.inr ⟨r2, List.mem_cons_of_mem r hr2, hp⟩
      | false =>
          simp only [processNewReleasesNotify,
            createEvent_fresh db repoId "release" (toString r.id) r
              (r.published_at / 1000) hT] at h
          split at h <;>
          · rcases ih _ e h with h1 | ⟨r2, hr2, hp⟩
            · rcases List.mem_append.mp h1 with h2 | h2
              · exact Or.inl h2
              · refine Or.inr ⟨r, List.mem_cons_self r rest, ?_⟩
                rw [List.mem_singleton.mp h2]
            · exact Or.inr ⟨r2, List.mem_cons_of_mem r hr2, hp⟩

/-- Claim C10 (confirmed): the client strips drafts from every ok response;
and every event row added by either poller carries a non-draft payload, so
no Event is ever created from a draft release by the release-polling path.
-/
theorem c10_no_draft_events :
    (∀ st rels etag lm result,
        getReleases st (GitHubResponse.okJson rels etag lm) =
          Except.ok result →
        ∀ r ∈ result.releases, r.draft = false) ∧
    (∀ repo st resp db now e,
        e ∈ (pollReleases repo st resp db now).db.rows →
        e ∈ db.rows ∨ e.payload.draft = false) ∧
    (∀ repo st resp db now e,
        e ∈ (pollReleasesAndNotify repo st resp db now).db.rows →
        e ∈ db.rows ∨ e.payload.draft = false) := by
  refine ⟨?_, ?_, ?_⟩
  · intro st rels etag lm result h r hr
    simp only [getReleases, Except.ok.injEq] at h
    subst h
    have := List.of_mem_filter hr
    simpa using this
  · intro repo st resp db now e h
    cases resp with
    | status304 => exact Or.inl (by simpa [pollReleases, getReleases] using h)
    | httpError status statusText =>
        exact Or.inl (by simpa [pollReleases, getReleases] using h)
    | okJson rels etag lm =>
        rw [pollReleases_okJson] at h
        split at h
        · exact Or.inl h
        · rcases mem_processNewReleases_rows repo.id _ db e h with h1 | ⟨r, hr, hp⟩
          · exact Or.inl h1
          · right
            rw [hp]
            have hr2 := newReleasesOf_subset _ _ r (List.mem_reverse.mp hr)
            have := List.of_mem_filter hr2
            simpa using this
  · intro repo st resp db now e h
    cases resp with
    | status304 =>
        exact Or.inl (by simpa [pollReleasesAndNotify, getReleases] using h)
    | httpError status statusText =>
        exact Or.inl (by simpa [pollReleasesAndNotify, getReleases] using h)
    | okJson rels etag lm =>
        rw [pollReleasesAndNotify_okJson] at h
        split at h
        · exact Or.inl h
        · rcases mem_processNewReleasesNotify_rows repo.id _ db e h with
            h1 | ⟨r, hr, hp⟩
          · exact Or.inl h1
          · right
            rw [hp]
            have hr3 := List.mem_reverse.mp hr
            have hr4 : r ∈ List.filter (fun r => !r.draft) rels := by
              rcases hopt : (st.bind fun s => s.lastSeenId : Option Nat) with
                _ | last
              · rw [hopt] at hr3; cases hr3
              · rw [hopt] at hr3; exact List.mem_of_mem_filter hr3
            have := List.of_mem_filter hr4
            simpa using this

/-- Witness for C10 at a concrete input: the event row created by a first
poll of a response carrying a draft has a non-draft payload. -/
theorem c10_no_draft_events_witness : eRow30.payload.draft = false :=
  (c10_no_draft_events.2.1 repoA none respWithDraft
      { rows := [], nextId := 1 } 1000 eRow30 (by decide)).resolve_left
    (by decide)

theorem processNewReleases_singleton_fresh (repoId : Nat) (db : EventsDB)
    (r : GitHubRelease)
    (h : hasEventTriple db repoId "release" (toString r.id) = false)
    (h1 : 1 ≤ db.nextId) :
    processNewReleases repoId db [r] =
      ({ rows := db.rows ++
           [{ id := db.nextId, repo_id := repoId, kind := "release",
              external_id := toString r.id, payload := r,
              occurred_at := r.published_at / 1000 }],
         nextId := db.nextId + 1 },
       [{ repo_id := repoId, kind := "release",
          external_id := toString r.id }]) := by
  have hne : (db.nextId == 0) = false := by
    rw [beq_eq_false_iff_ne]
    omega
  simp only [processNewReleases,
    createEvent_fresh db repoId "release" (toString r.id) r
      (r.published_at / 1000) h, hne, Bool.false_eq_true, if_false]

theorem processNewReleasesNotify_singleton_fresh (repoId : Nat)
    (db : EventsDB) (r : GitHubRelease)
    (h : hasEventTriple db repoId "release" (toString r.id) = false)
    (h1 : 1 ≤ db.nextId) :
    processNewReleasesNotify repoId db [r] =
      ({ rows := db.rows ++
           [{ id := db.nextId, repo_id := repoId, kind := "release",
              external_id := toString r.id, payload := r,
              occurred_at := r.published_at / 1000 }],
         nextId := db.nextId + 1 },
       [(db.nextId, r)]) := by
  have hne : (db.nextId == 0) = false := by
    rw [beq_eq_false_iff_ne]
    omega
  simp only [processNewReleasesNotify,
    createEvent_fresh db repoId "release" (toString r.id) r
      (r.published_at / 1000) h, hne, Bool.false_eq_true, if_false]

theorem filter_new_singleton (M : Nat) (rNew : GitHubRelease)
    (rest2 : List GitHubRelease) (hNew : M < rNew.id)
    (hrest : ∀ r ∈ rest2, r.id ≤ M) :
    (rNew :: rest2).filter (fun r => decide (M < r.id)) = [rNew] := by
  rw [List.filter_cons_of_pos (by simpa using hNew)]
  have : rest2.filter (fun r => decide (M < r.id)) = [] := by
    rw [List.filter_eq_nil_iff]
    intro r hr
    simp only [decide_eq_true_iff]
    have := hrest r hr
    omega
  rw [this]

/-- Counterexample for C1: in the queue poller (src/src/workers/poller.ts)
a first poll with no stored cursor creates an Event for the pre-existing
newest item and queues its EventMessage, and the queue notifier then
produces a notification row for a subscriber of that repo, so one
notification is emitted for the pre-existing newest item, not zero. -/
theorem c1_first_poll_counterexample :
    (pollReleases repoA none respCycle1 { rows := [], nextId := 1 }
        1000).queued =
      [{ repo_id := 7, kind := "release", external_id := "30" }] ∧
    ((pollReleases repoA none respCycle1 { rows := [], nextId := 1 }
        1000).db.rows.map fun e => e.external_id) = ["30"] ∧
    (processSubscription compileAny deliverOk subAll 1 rel30
        { rows := [], nextId := 1 } 1000).rows.length = 1 := by
  decide

/-- Claim C1 (corrected): on a first poll (no stored cursor) with a
non-empty non-draft fetch, the simple poller creates no event and sends no
notification, but the queue poller creates an event and queues a
notification message for exactly the single most-recent item; both store a
cursor at the maximum fetched id, and a later cycle whose head is a
genuinely new item (id above the stored maximum, the rest at or below it)
emits exactly that item in both pollers. -/
theorem c1_first_poll_amended (repo : Repo) (rels rest : List GitHubRelease)
    (r0 : GitHubRelease) (etag lm : Option String) (db : EventsDB) (now : Nat)
    (hfil : rels.filter (fun r => !r.draft) = r0 :: rest)
    (hnext : 1 ≤ db.nextId)
    (hfresh : hasEventTriple db repo.id "release" (toString r0.id) = false) :
    (pollReleasesAndNotify repo none (GitHubResponse.okJson rels etag lm)
        db now).notified = [] ∧
    (pollReleasesAndNotify repo none (GitHubResponse.okJson rels etag lm)
        db now).db = db ∧
    (pollReleases repo none (GitHubResponse.okJson rels etag lm)
        db now).queued =
      [{ repo_id := repo.id, kind := "release",
         external_id := toString r0.id }] ∧
    (pollReleases repo none (GitHubResponse.okJson rels etag lm)
        db now).kvPut =
      some { lastSeenId := some (maxReleaseId (r0 :: rest)), etag := etag,
             lastModified := lm, checkedAt := now } ∧
    (pollReleasesAndNotify repo none (GitHubResponse.okJson rels etag lm)
        db now).kvPut =
      some { lastSeenId := some (maxReleaseId (r0 :: rest)), etag := etag,
             lastModified := lm, checkedAt := now } ∧
    (∀ (s1 : PollState) (rels2 rest2 : List GitHubRelease)
        (rNew : GitHubRelease) (db2 : EventsDB) (etag2 lm2 : Option String)
        (now2 : Nat),
      s1.lastSeenId = some (maxReleaseId (r0 :: rest)) →
      rels2.filter (fun r => !r.draft) = rNew :: rest2 →
      maxReleaseId (r0 :: rest) < rNew.id →
      (∀ r ∈ rest2, r.id ≤ maxReleaseId (r0 :: rest)) →
      1 ≤ db2.nextId →
      hasEventTriple db2 repo.id "release" (toString rNew.id) = false →
      (pollReleases repo (some s1) (GitHubResponse.okJson rels2 etag2 lm2)
          db2 now2).queued =
        [{ repo_id := repo.id, kind := "release",
           external_id := toString rNew.id }] ∧
      (pollReleasesAndNotify repo (some s1)
          (GitHubResponse.okJson rels2 etag2 lm2) db2 now2).notified =
        [(db2.nextId, rNew)]) := by
  refine ⟨?_, ?_, ?_, ?_, ?_, ?_⟩
  · rw [pollReleasesAndNotify_okJson]
    simp [hfil, processNewReleasesNotify]
  · rw [pollReleasesAndNotify_okJson]
    simp [hfil, processNewReleasesNotify]
  · rw [pollReleases_okJson]
    simp only [hfil, List.isEmpty_cons, Bool.false_eq_true, if_false,
      Option.none_bind, newReleasesOf, List.take_succ_cons, List.take_zero,
      List.reverse_cons, List.reverse_nil, List.nil_append,
      processNewReleases_singleton_fresh repo.id db r0 hfresh hnext]
  · rw [pollReleases_okJson]
    simp [hfil]
  · rw [pollReleasesAndNotify_okJson]
    simp [hfil]
  · intro s1 rels2 rest2 rNew db2 etag2 lm2 now2 hs1 hfil2 hNew hrest hnext2
      hfresh2
    constructor
    · rw [pollReleases_okJson]
      simp only [hfil2, List.isEmpty_cons, Bool.false_eq_true, if_false,
        Option.some_bind, hs1, newReleasesOf,
        filter_new_singleton _ rNew rest2 hNew hrest,
        List.reverse_singleton,
        processNewReleases_singleton_fresh repo.id db2 rNew hfresh2 hnext2]
    · rw [pollReleasesAndNotify_okJson]
      simp only [hfil2, List.isEmpty_cons, Bool.false_eq_true, if_false,
        Option.some_bind, hs1,
        filter_new_singleton _ rNew rest2 hNew hrest,
        List.reverse_singleton,
        processNewReleasesNotify_singleton_fresh repo.id db2 rNew hfresh2
          hnext2]

/-- Witness for C1 at the spec scenario: cycle one establishes the cursor
at 30 with no simple-poller notification but one queued message in the
queue poller, and cycle two emits exactly release 40. -/
theorem c1_first_poll_amended_witness :
    (pollReleasesAndNotify repoA none respCycle1 { rows := [], nextId := 1 }
        1000).notified = [] ∧
    (pollReleases repoA none respCycle1 { rows := [], nextId := 1 }
        1000).queued =
      [{ repo_id := 7, kind := "release", external_id := "30" }] ∧
    (pollReleases repoA
        (some { lastSeenId := some 30, etag := some "etag1",
                lastModified := none, checkedAt := 1000 })
        respCycle2 { rows := [], nextId := 1 } 1180).queued =
      [{ repo_id := 7, kind := "release", external_id := "40" }] := by
  have h := c1_first_poll_amended repoA [rel30, rel20, rel10] [rel20, rel10]
    rel30 (some "etag1") none { rows := [], nextId := 1 } 1000 (by decide)
    (by decide) (by decide)
  exact ⟨h.1, h.2.2.1,
    (h.2.2.2.2.2
      { lastSeenId := some 30, etag := some "etag1", lastModified := none,
        checkedAt := 1000 } [rel40, rel30, rel20] [rel30, rel20] rel40
      { rows := [], nextId := 1 } (some "etag2") none 1180 (by decide)
      (by decide) (by decide) (by decide) (by decide) (by decide)).1⟩

end GitPing
